import Mathlib

/-!
Verification development for the `auv_listener` message filtering and
demultiplexing pipeline (`filter_utils.py`, `sentry_filter.py`,
`usbl_filter.py`).

Raw lines are embedded as `List Char`.  Python string operations used by the
source (`in`, `.index`, `.split`, slicing, `int(...)`, `.replace`) are given
explicit executable models below.  Python functions that can raise are
embedded as `Except PyErr` / `Option` valued functions; functions whose
try/except blocks swallow every error are total and return `Option`.
-/

set_option maxRecDepth 20000

/-- Python exceptions that the embedded code can raise. -/
inductive PyErr
  | indexError
  | typeError
  deriving DecidableEq

/-- The message-type names used by the sentry pipeline: the three types of the
`filter_utils.py` revision in the repository plus the three added ones that
`sentry_filter.py` (rev. Aug 2023) dispatches on (`queue_names` list). -/
inductive SentryMsgType
  | status
  | science
  | experimental
  | supr
  | mets
  | obs
  deriving DecidableEq

/-- Python `str.isspace` characters relevant to `int()` stripping (ASCII). -/
def pyIsSpace (c : Char) : Bool :=
  c = ' ' || c = '\t' || c = '\n' || c = '\r' || c = '\x0b' || c = '\x0c'

/-- Strip whitespace from both ends (model of Python `str.strip()` as done
inside `int(...)` conversion). -/
def stripWs (s : List Char) : List Char :=
  ((s.dropWhile pyIsSpace).reverse.dropWhile pyIsSpace).reverse

/-- Numeric value of a decimal digit character. -/
def digitVal (c : Char) : Nat := c.toNat - 48

/-- Digits of a Python integer literal: decimal digits with single underscores
allowed between digits (model of `int()` digit-run acceptance). -/
def pyDigitsAux : Nat → List Char → Option Nat
  | acc, [] => some acc
  | acc, '_' :: c :: rest =>
    if c.isDigit then pyDigitsAux (acc * 10 + digitVal c) rest else none
  | _, ['_'] => none
  | acc, c :: rest =>
    if c.isDigit then pyDigitsAux (acc * 10 + digitVal c) rest else none

/-- Nonempty digit run (first character must be a digit). -/
def pyNat? : List Char → Option Nat
  | [] => none
  | c :: rest => if c.isDigit then pyDigitsAux (digitVal c) rest else none

/-- Model of Python `int(s)`: strip whitespace, optional sign, digit run.
Returns `none` where Python raises `ValueError`. -/
def pyInt? (s : List Char) : Option Int :=
  match stripWs s with
  | '+' :: r => (pyNat? r).map (fun n => (n : Int))
  | '-' :: r => (pyNat? r).map (fun n => -(n : Int))
  | r => (pyNat? r).map (fun n => (n : Int))

/-- Boolean list-prefix test (used to model substring search). -/
def isPre {α : Type} [DecidableEq α] : List α → List α → Bool
  | [], _ => true
  | _ :: _, [] => false
  | a :: as, b :: bs => decide (a = b) && isPre as bs

/-- First index at which `pat` occurs as a contiguous sublist of the second
argument, if any.  `(subIdx pat s).isSome` models Python `pat in s`, and the
index models `s.index(pat)` (which the source only calls after an `in` check).
-/
def subIdx {α : Type} [DecidableEq α] (pat : List α) : List α → Option Nat
  | [] => if pat.isEmpty then some 0 else none
  | s@(_ :: rest) =>
    if isPre pat s then some 0 else (subIdx pat rest).map (fun n => n + 1)

/-- Model of Python `s.split(sep)` for a single-character separator: splits at
every occurrence, keeping empty components; always returns at least one
component. -/
def splitChar (sep : Char) : List Char → List (List Char)
  | [] => [[]]
  | c :: rest =>
    let r := splitChar sep rest
    if c = sep then
      [] :: r
    else
      match r with
      | h :: t => (c :: h) :: t
      | [] => [[c]]

/-- Concatenation of whole newline-terminated lines, as produced by an
append-only producer of the raw telemetry file. -/
def joinNl : List (List Char) → List Char
  | [] => []
  | l :: ls => l ++ '\n' :: joinNl ls

def sdqTag : List Char := (r"SDQ").toList
def vfrTag : List Char := (r"VFR").toList
def usblTag : List Char := (r"USBL").toList
def gps0Tag : List Char := (r"SOLN_GPS0").toList

/-- `filter_utils.filter_sentry_status_message`: the body is `return message`
inside try/except, so it is the identity and never fails. -/
def filter_sentry_status_message (message : List Char) : Option (List Char) :=
  some message

/-- `filter_utils.filter_sentry_science_message`: splits the payload on single
spaces, reads the first six fields, and rejoins them with commas.  Any
`IndexError` (fewer than six fields) is swallowed by the try/except and
becomes `none`.  No numeric conversion is performed on the fields. -/
def filter_sentry_science_message (message : List Char) : Option (List Char) :=
  let packet := splitChar ' ' message
  match packet[0]?, packet[1]?, packet[2]?, packet[3]?, packet[4]?, packet[5]? with
  | some o2, some obs, some orp, some temp, some salt, some depth =>
    some (o2 ++ ',' :: obs ++ ',' :: orp ++ ',' :: temp ++ ',' :: salt ++ ',' :: depth)
  | _, _, _, _, _, _ => none

/-- `filter_utils.filter_experimental_message`: `str(message)`, the identity
on strings; it has no failure path. -/
def filter_experimental_message (message : List Char) : List Char :=
  message

/-- `filter_utils.parse_sentry_payload` (the three-queue revision present in
`src/filter_utils.py`).  Mirrors the source line by line: the `"SDQ" in
message` guard, `payload = message[message.index("SDQ"):]`, `timestamp =
message.split("|")[0]`, `queue = int(payload[4:payload.index(":")])`,
`payload = payload[payload.index(":")+1:]`, then the queue comparison chain.
The try/except around the numeric parse is modelled by the `none` branches. -/
def parse_sentry_payload (message : List Char)
    (status_queue science_queue experimental_queue : Int) :
    Option SentryMsgType × List Char × Option (List Char) :=
  match subIdx sdqTag message with
  | none => (none, message, none)
  | some i =>
    let payload := message.drop i
    let timestamp := (splitChar '|' message).headD []
    match payload.findIdx? (fun c => c == ':') with
    | none => (none, message, some timestamp)
    | some j =>
      match pyInt? ((payload.drop 4).take (j - 4)) with
      | none => (none, message, some timestamp)
      | some queue =>
        let payload2 := payload.drop (j + 1)
        if queue = status_queue then (some SentryMsgType.status, payload2, some timestamp)
        else if queue = science_queue then (some SentryMsgType.science, payload2, some timestamp)
        else if queue = experimental_queue then
          (some SentryMsgType.experimental, payload2, some timestamp)
        else (none, message, some timestamp)

/-- Modelled from the spec: `sentry_filter.py` (rev. Aug 2023) imports and
calls a six-queue revision of `parse_sentry_payload` that is absent from
`src/filter_utils.py` (the call at sentry_filter.py:78-84 passes the six
queue ids that populate the driver's `queue_names` list).  Per spec section
4.1 the classifier maps the parsed queue number through the registry to the
type name, here the six names of the driver's `queue_names`, in the order of
the call site (the methane queue feeds the "experimental" type).  Everything
except the six-way comparison chain is the marker/timestamp/queue-number
logic of the source three-queue `parse_sentry_payload` above. -/
def parse_sentry_payload_v2 (message : List Char)
    (status_queue science_queue methane_queue supr_queue mets_queue obs_queue : Int) :
    Option SentryMsgType × List Char × Option (List Char) :=
  match subIdx sdqTag message with
  | none => (none, message, none)
  | some i =>
    let payload := message.drop i
    let timestamp := (splitChar '|' message).headD []
    match payload.findIdx? (fun c => c == ':') with
    | none => (none, message, some timestamp)
    | some j =>
      match pyInt? ((payload.drop 4).take (j - 4)) with
      | none => (none, message, some timestamp)
      | some queue =>
        let payload2 := payload.drop (j + 1)
        if queue = status_queue then (some SentryMsgType.status, payload2, some timestamp)
        else if queue = science_queue then (some SentryMsgType.science, payload2, some timestamp)
        else if queue = methane_queue then
          (some SentryMsgType.experimental, payload2, some timestamp)
        else if queue = supr_queue then (some SentryMsgType.supr, payload2, some timestamp)
        else if queue = mets_queue then (some SentryMsgType.mets, payload2, some timestamp)
        else if queue = obs_queue then (some SentryMsgType.obs, payload2, some timestamp)
        else (none, message, some timestamp)

/-- The driver's `queue_filters` dispatch table (sentry_filter.py:49-54) as a
function from message type to formatter.  The first three entries are the
formatters defined in `src/filter_utils.py`; `filter_supr_message`,
`filter_mets_message` and `filter_obs_message` are not defined there, so they
are taken as parameters. -/
def sentryFormatter (fsupr fmets fobs : List Char → Option (List Char)) :
    SentryMsgType → List Char → Option (List Char)
  | SentryMsgType.status => filter_sentry_status_message
  | SentryMsgType.science => filter_sentry_science_message
  | SentryMsgType.experimental => fun m => some (filter_experimental_message m)
  | SentryMsgType.supr => fsupr
  | SentryMsgType.mets => fmets
  | SentryMsgType.obs => fobs

/-- The per-type output files of the sentry pipeline (`queue_files`), each an
append-only list of written records.  The six paths are pairwise distinct
because the `queue_names` strings are. -/
def SentryFiles : Type := SentryMsgType → List (List Char)

/-- One iteration of the per-line body of the sentry driver loop
(sentry_filter.py:78-106) given a classifier: classify, skip on `None` type,
look up the formatter, skip on `None` data, else append
`timestamp + "," + data` to the type's output file. -/
def sentry_process_line
    (parse : List Char → Option SentryMsgType × List Char × Option (List Char))
    (F : SentryMsgType → List Char → Option (List Char))
    (files : SentryFiles) (line : List Char) : SentryFiles :=
  match parse line with
  | (none, _, _) => files
  | (some t, payload, timestamp) =>
    match F t payload with
    | none => files
    | some data =>
      fun t' => if t' = t then files t ++ [timestamp.getD [] ++ ',' :: data] else files t'

/-- Spec-side description of one output file's content ("the records
`timestamp,data` produced from exactly the subsequence of raw lines that
classify to that type and whose formatter returns a non-none result"). -/
def sentryExpected
    (parse : List Char → Option SentryMsgType × List Char × Option (List Char))
    (F : SentryMsgType → List Char → Option (List Char))
    (t : SentryMsgType) (rawLines : List (List Char)) : List (List Char) :=
  rawLines.filterMap (fun line =>
    match parse line with
    | (some t', payload, timestamp) =>
      if t' = t then (F t' payload).map (fun data => timestamp.getD [] ++ ',' :: data)
      else none
    | (none, _, _) => none)

/-- The four per-target output files written by `parse_usbl_payload`. -/
structure UsblFiles where
  sentry : List (List Char)
  jason : List (List Char)
  ship : List (List Char)
  ctd : List (List Char)
  deriving DecidableEq

/-- The `new_stamp` local of `parse_usbl_payload`:
`packets[1].replace("/", "-")`. -/
def usblStamp (p1 : List Char) : List Char :=
  p1.map (fun c => if c = '/' then '-' else c)

/-- The `info` local of `parse_usbl_payload`:
`f"{new_stamp} {packets[2]},{packets[6]},{packets[7]},{packets[8]}"`. -/
def usblInfoOf (p1 p2 p6 p7 p8 : List Char) : List Char :=
  usblStamp p1 ++ ' ' :: p2 ++ ',' :: p6 ++ ',' :: p7 ++ ',' :: p8

/-- The record `parse_usbl_payload` writes for a raw line (the `info` local
expressed directly in terms of the line). -/
def usblInfo (m : List Char) : List Char :=
  usblInfoOf ((splitChar ' ' m).getD 1 []) ((splitChar ' ' m).getD 2 [])
    ((splitChar ' ' m).getD 6 []) ((splitChar ' ' m).getD 7 [])
    ((splitChar ' ' m).getD 8 [])

/-- `filter_utils.parse_usbl_payload`.  The four file-target path arguments of
the source become the four components of the `UsblFiles` state; each write
(`open` in append/create mode, `write(info + "\n")`, `flush`) becomes an
append of `info` to the target's record list.  The source indexes
`packets[1]` (`new_stamp`), then `packets[2]`, `packets[6]`, `packets[7]`,
`packets[8]` (the `info` f-string) before any guard, so any line whose
split has fewer than nine components raises `IndexError`; there is no
try/except around these accesses.  `packets[0]`, `packets[4]`, `packets[5]`
exist whenever the nine-component accesses succeed. -/
def parse_usbl_payload (message : List Char)
    (sentry_id jason_id ship_id ctd_id : List Char)
    (files : UsblFiles) : Except PyErr UsblFiles :=
  match splitChar ' ' message with
  | p0 :: p1 :: p2 :: _p3 :: p4 :: p5 :: p6 :: p7 :: p8 :: _rest =>
    if (subIdx vfrTag p0).isSome then
      if p4 = sentry_id ∧ (subIdx usblTag p5).isSome then
        Except.ok { files with sentry := files.sentry ++ [usblInfoOf p1 p2 p6 p7 p8] }
      else if p4 = jason_id ∧ (subIdx usblTag p5).isSome then
        Except.ok { files with jason := files.jason ++ [usblInfoOf p1 p2 p6 p7 p8] }
      else if p4 = ship_id ∧ (subIdx gps0Tag p5).isSome then
        Except.ok { files with ship := files.ship ++ [usblInfoOf p1 p2 p6 p7 p8] }
      else if p4 = ctd_id ∧ (subIdx usblTag p5).isSome then
        Except.ok { files with ctd := files.ctd ++ [usblInfoOf p1 p2 p6 p7 p8] }
      else Except.ok files
    else Except.ok files
  | _ => Except.error PyErr.indexError

/-- The guard disjunction of `parse_usbl_payload`: true iff some branch of
the if/elif chain accepts the line (so some target receives a record). -/
def usblMatches (message : List Char)
    (sentry_id jason_id ship_id ctd_id : List Char) : Bool :=
  let packets := splitChar ' ' message
  (subIdx vfrTag (packets.headD [])).isSome &&
    (decide (packets.getD 4 [] = sentry_id) && (subIdx usblTag (packets.getD 5 [])).isSome ||
     decide (packets.getD 4 [] = jason_id) && (subIdx usblTag (packets.getD 5 [])).isSome ||
     decide (packets.getD 4 [] = ship_id) && (subIdx gps0Tag (packets.getD 5 [])).isSome ||
     decide (packets.getD 4 [] = ctd_id) && (subIdx usblTag (packets.getD 5 [])).isSome)

/-- Driver-loop state: the `last_line` read cursor plus the accumulated
output (the per-type files, a processed-line log, ...). -/
structure DriverState (σ : Type) where
  last_line : Nat
  out : σ

/-- The per-line guard of both driver loops: `if len(line) == 0: continue`. -/
def lineStep {σ : Type} (step : σ → List Char → σ) (acc : σ) (line : List Char) : σ :=
  if line.length = 0 then acc else step acc line

/-- One polling iteration of the driver loop (sentry_filter.py:66-106,
usbl_filter.py:54-66): read the whole file, split on newlines, skip if
`last_line == len(lines) - 1`, else process `lines[last_line:]` in order and
set `last_line = len(lines) - 1`. -/
def pollOnce {σ : Type} (step : σ → List Char → σ) (content : List Char)
    (s : DriverState σ) : DriverState σ :=
  let lines := splitChar '\n' content
  if s.last_line = lines.length - 1 then s
  else
    { last_line := lines.length - 1
      out := (lines.drop s.last_line).foldl (lineStep step) s.out }

/-- The driver loop run over a finite sequence of observed file contents
(one per polling iteration), starting from a given state. -/
def driverRun {σ : Type} (step : σ → List Char → σ) (s : DriverState σ) :
    List (List Char) → DriverState σ
  | [] => s
  | c :: cs => driverRun step (pollOnce step c s) cs

/-- All intermediate driver states of a run, initial state included. -/
def driverTrace {σ : Type} (step : σ → List Char → σ) (s : DriverState σ) :
    List (List Char) → List (DriverState σ)
  | [] => [s]
  | c :: cs => s :: driverTrace step (pollOnce step c s) cs

/-- `chainFromB prev L snaps` holds when the line lists `snaps` observed at
successive polls grow append-only from `prev` and end exactly at the full
batch `L`. -/
def chainFromB : List (List Char) → List (List Char) → List (List (List Char)) → Bool
  | prev, L, [] => decide (prev = L)
  | prev, L, b :: rest => isPre prev b && chainFromB b L rest

/-- Per-line processing for a step that may raise (the USBL loop body,
usbl_filter.py:62-66, and the sentry loop body as written): empty lines are
skipped; on an exception processing stops, the output written so far
persists, and the error propagates (killing the process). -/
def processLinesE {σ : Type} (step : σ → List Char → Except PyErr σ) :
    σ → List (List Char) → σ × Option PyErr
  | s, [] => (s, none)
  | s, l :: ls =>
    if l.length = 0 then processLinesE step s ls
    else
      match step s l with
      | Except.error e => (s, some e)
      | Except.ok s2 => processLinesE step s2 ls

/-- One polling iteration for a raising step.  `last_line` is updated before
the per-line loop, as in the source. -/
def pollOnceE {σ : Type} (step : σ → List Char → Except PyErr σ) (content : List Char)
    (s : DriverState σ) : DriverState σ × Option PyErr :=
  let lines := splitChar '\n' content
  if s.last_line = lines.length - 1 then (s, none)
  else
    let r := processLinesE step s.out (lines.drop s.last_line)
    ({ last_line := lines.length - 1, out := r.1 }, r.2)

/-- Driver run for a raising step: an uncaught exception terminates the
`while(1)` loop (no later poll happens). -/
def driverRunE {σ : Type} (step : σ → List Char → Except PyErr σ) :
    DriverState σ → List (List Char) → DriverState σ × Option PyErr
  | s, [] => (s, none)
  | s, c :: cs =>
    match pollOnceE step c s with
    | (s2, none) => driverRunE step s2 cs
    | (s2, some e) => (s2, some e)

/-- The module-level function names defined in `src/filter_utils.py`. -/
def filter_utils_defined_names : List String :=
  [r"filter_sentry_status_message", r"filter_sentry_science_message",
   r"filter_experimental_message", r"parse_sentry_payload", r"parse_usbl_payload"]

/-- The names `sentry_filter.py` imports from `filter_utils`
(sentry_filter.py:17-18). -/
def sentry_filter_imported_names : List String :=
  [r"filter_sentry_science_message", r"filter_sentry_status_message",
   r"filter_experimental_message", r"filter_supr_message", r"filter_mets_message",
   r"parse_sentry_payload", r"filter_obs_message"]

/-- Whether the `from filter_utils import ...` statement of `sentry_filter.py`
succeeds against `src/filter_utils.py`: every imported name must be defined. -/
def sentryImportsOk : Bool :=
  sentry_filter_imported_names.all (fun n => filter_utils_defined_names.contains n)

/-- A Python call to the three-queue `parse_sentry_payload` of
`src/filter_utils.py` with a dynamic list of queue arguments: any number of
queue arguments other than exactly three raises `TypeError` before the
function body runs. -/
def callParseSentry (message : List Char) (queueArgs : List Int) :
    Except PyErr (Option SentryMsgType × List Char × Option (List Char)) :=
  match queueArgs with
  | [a1, a2, a3] => Except.ok (parse_sentry_payload message a1 a2 a3)
  | _ => Except.error PyErr.typeError

/-- The per-line body of the sentry driver loop exactly as written
(sentry_filter.py:78-106): the classifier call goes through `callParseSentry`
with the queue-argument list of the call site. -/
def sentry_line_step_as_written (queueArgs : List Int)
    (F : SentryMsgType → List Char → Option (List Char))
    (files : SentryFiles) (line : List Char) : Except PyErr SentryFiles :=
  match callParseSentry line queueArgs with
  | Except.error e => Except.error e
  | Except.ok (none, _, _) => Except.ok files
  | Except.ok (some t, payload, timestamp) =>
    match F t payload with
    | none => Except.ok files
    | some data =>
      Except.ok (fun t' =>
        if t' = t then files t ++ [timestamp.getD [] ++ ',' :: data] else files t')

/-- The queue-argument list of the call at sentry_filter.py:78-84: the six
config values STATUS, SCIENCE, METHANE, SUPR, METS, OBS. -/
def sentryCallQueueArgs (q1 q2 q3 q4 q5 q6 : Int) : List Int :=
  [q1, q2, q3, q4, q5, q6]

/-- The observable output of one run of `sentry_filter.py` as written: if
the import statement fails the module never runs and no file is written; if it
ran, the output would be whatever the as-written loop wrote before dying. -/
def sentryMainOutputs (F : SentryMsgType → List Char → Option (List Char))
    (queueArgs : List Int) (contents : List (List Char)) : SentryFiles :=
  if sentryImportsOk then
    ((driverRunE (sentry_line_step_as_written queueArgs F)
        { last_line := 0, out := fun _ => [] } contents).1).out
  else fun _ => []

/-- Concrete raw lines and records used by the claims. -/
def sentry_example_line : List Char :=
  (r"SMS>blah|SDQ 34:120.5 80.2 30.1 15.6 33.2 1500.0").toList

def sentry_example_record : List Char :=
  (r"SMS>blah,120.5,80.2,30.1,15.6,33.2,1500.0").toList

def sentry_nobar_line : List Char := (r"SDQ 34:1 2 3 4 5 6").toList

def usbl_example_line : List Char :=
  (r"VFR 2019/09/24 13:27:58.033 2 0 SOLN_USBL -125.079565 44.489675 -597.900 0.000 10 0.00 0.00").toList

def usbl_example_record : List Char :=
  (r"2019-09-24 13:27:58.033,-125.079565,44.489675,-597.900").toList

def usbl_short_line : List Char :=
  (r"VFR 2019/09/24 13:27:58.033 2 0 SOLN_USBL").toList

/-- The three-queue formatter table (the three formatters that exist in
`src/filter_utils.py`; the missing three never receive a payload from the
three-queue classifier). -/
def sentryFormatter3 : SentryMsgType → List Char → Option (List Char) :=
  sentryFormatter (fun _ => none) (fun _ => none) (fun _ => none)

/-- Empty per-type output files (no file yet created). -/
def sentryFiles0 : SentryFiles := fun _ => []

def unknownQueueLine : List Char := (r"SDQ 99:stuff").toList

def usblFiles0 : UsblFiles := { sentry := [], jason := [], ship := [], ctd := [] }

def usblFilesEx : UsblFiles :=
  { sentry := [usbl_example_record], jason := [], ship := [], ctd := [] }

def fifoLine1 : List Char := (r"SMS>a|SDQ 0:x").toList

def fifoLine2 : List Char := (r"SDQ 4:1 2 3 4 5 6").toList

def fifoSnapsW : List (List (List Char)) := [[fifoLine1], [fifoLine1, fifoLine2]]

def fifoLW : List (List Char) := [fifoLine1, fifoLine2]

def logSnapsW : List (List (List Char)) :=
  [[(r"ab").toList], [(r"ab").toList, (r"cd").toList]]

def logLW : List (List Char) := [(r"ab").toList, (r"cd").toList]

/-! ### Helper lemmas -/

theorem isPre_iff {α : Type} [DecidableEq α] :
    ∀ (a b : List α), isPre a b = true ↔ ∃ t, a ++ t = b
  | [], b => by simp [isPre]
  | _ :: _, [] => by simp [isPre]
  | x :: xs, y :: ys => by
    simp only [isPre, Bool.and_eq_true, decide_eq_true_eq, isPre_iff xs ys,
      List.cons_append, List.cons.injEq]
    constructor
    · rintro ⟨rfl, t, rfl⟩
      exact ⟨t, rfl, rfl⟩
    · rintro ⟨t, rfl, h⟩
      exact ⟨rfl, t, h⟩

theorem splitChar_append_sep (sep : Char) (l rest : List Char) (h : sep ∉ l) :
    splitChar sep (l ++ sep :: rest) = l :: splitChar sep rest := by
  induction l with
  | nil => simp [splitChar]
  | cons c cs ih =>
    have hc : ¬ c = sep := by
      rintro rfl
      exact h (List.mem_cons_self _ _)
    have hcs : sep ∉ cs := fun hm => h (List.mem_cons_of_mem _ hm)
    rw [List.cons_append]
    simp only [splitChar, if_neg hc, ih hcs]

theorem splitChar_eq_self (sep : Char) (s : List Char) (h : sep ∉ s) :
    splitChar sep s = [s] := by
  induction s with
  | nil => rfl
  | cons c cs ih =>
    have hc : ¬ c = sep := by
      rintro rfl
      exact h (List.mem_cons_self _ _)
    have hcs : sep ∉ cs := fun hm => h (List.mem_cons_of_mem _ hm)
    simp only [splitChar, if_neg hc, ih hcs]

theorem splitChar_joinNl (L : List (List Char)) (h : ∀ l ∈ L, '\n' ∉ l) :
    splitChar '\n' (joinNl L) = L ++ [[]] := by
  induction L with
  | nil => rfl
  | cons l ls ih =>
    have h1 : '\n' ∉ l := h l (List.mem_cons_self _ _)
    have h2 : ∀ x ∈ ls, '\n' ∉ x := fun x hx => h x (List.mem_cons_of_mem _ hx)
    simp only [joinNl, splitChar_append_sep '\n' l _ h1, ih h2, List.cons_append]

theorem pollOnce_eq {σ : Type} (step : σ → List Char → σ) (L : List (List Char))
    (c : Nat) (o : σ) (hnl : ∀ l ∈ L, '\n' ∉ l) (hc : c ≤ L.length) :
    pollOnce step (joinNl L) { last_line := c, out := o }
      = { last_line := L.length, out := (L.drop c).foldl (lineStep step) o } := by
  have hlines : splitChar '\n' (joinNl L) = L ++ [[]] := splitChar_joinNl L hnl
  have hlen2 : (L ++ ([[]] : List (List Char))).length - 1 = L.length := by simp
  by_cases hceq : c = L.length
  · subst hceq
    simp [pollOnce, hlines, hlen2, List.drop_length]
  · have hdrop : (L ++ [[]]).drop c = L.drop c ++ [[]] := by
      rw [List.drop_append_eq_append_drop, Nat.sub_eq_zero_of_le hc, List.drop_zero]
    simp [pollOnce, hlines, hlen2, hceq, hdrop, List.foldl_append, lineStep]

theorem chainFromB_prefix :
    ∀ (prev L : List (List Char)) (snaps : List (List (List Char))),
      chainFromB prev L snaps = true → ∃ t, prev ++ t = L
  | prev, L, [] => by
    simp only [chainFromB, decide_eq_true_eq]
    rintro rfl
    exact ⟨[], List.append_nil _⟩
  | prev, L, b :: rest => by
    simp only [chainFromB, Bool.and_eq_true]
    rintro ⟨h1, h2⟩
    obtain ⟨t1, ht1⟩ := (isPre_iff prev b).mp h1
    obtain ⟨t2, ht2⟩ := chainFromB_prefix b L rest h2
    exact ⟨t1 ++ t2, by rw [← List.append_assoc, ht1, ht2]⟩

theorem driverRun_chain {σ : Type} (step : σ → List Char → σ) (o0 : σ) :
    ∀ (snaps : List (List (List Char))) (prev L : List (List Char)),
      chainFromB prev L snaps = true → (∀ l ∈ L, '\n' ∉ l) →
      driverRun step { last_line := prev.length, out := prev.foldl (lineStep step) o0 }
          (snaps.map joinNl)
        = { last_line := L.length, out := L.foldl (lineStep step) o0 }
  | [], prev, L => by
    intro hch _
    simp only [chainFromB, decide_eq_true_eq] at hch
    subst hch
    rfl
  | b :: rest, prev, L => by
    intro hch hnl
    simp only [chainFromB, Bool.and_eq_true] at hch
    obtain ⟨h1, h2⟩ := hch
    obtain ⟨t1, ht1⟩ := (isPre_iff prev b).mp h1
    obtain ⟨t2, ht2⟩ := chainFromB_prefix b L rest h2
    have hnlb : ∀ l ∈ b, '\n' ∉ l := by
      intro l hl
      apply hnl
      rw [← ht2]
      exact List.mem_append_left _ hl
    have hlen : prev.length ≤ b.length := by
      rw [← ht1, List.length_append]
      omega
    simp only [List.map_cons, driverRun]
    rw [pollOnce_eq step b prev.length _ hnlb hlen]
    have hdrop : b.drop prev.length = t1 := by rw [← ht1, List.drop_left]
    have hfold : (b.drop prev.length).foldl (lineStep step) (prev.foldl (lineStep step) o0)
        = b.foldl (lineStep step) o0 := by
      rw [hdrop, ← List.foldl_append, ht1]
    rw [hfold]
    exact driverRun_chain step o0 rest b L h2 hnl

theorem driverTrace_head {σ : Type} (step : σ → List Char → σ) (s : DriverState σ)
    (cs : List (List Char)) : (driverTrace step s cs).head? = some s := by
  cases cs <;> rfl

theorem driverTrace_mono {σ : Type} (step : σ → List Char → σ) :
    ∀ (snaps : List (List (List Char))) (prev L : List (List Char)) (o : σ),
      chainFromB prev L snaps = true → (∀ l ∈ L, '\n' ∉ l) →
      List.Chain' (fun a b => a ≤ b)
        ((driverTrace step { last_line := prev.length, out := o } (snaps.map joinNl)).map
          DriverState.last_line)
  | [], prev, L, o => by
    intro _ _
    simp [driverTrace]
  | b :: rest, prev, L, o => by
    intro hch hnl
    simp only [chainFromB, Bool.and_eq_true] at hch
    obtain ⟨h1, h2⟩ := hch
    obtain ⟨t1, ht1⟩ := (isPre_iff prev b).mp h1
    obtain ⟨t2, ht2⟩ := chainFromB_prefix b L rest h2
    have hnlb : ∀ l ∈ b, '\n' ∉ l := by
      intro l hl
      apply hnl
      rw [← ht2]
      exact List.mem_append_left _ hl
    have hlen : prev.length ≤ b.length := by
      rw [← ht1, List.length_append]
      omega
    simp only [List.map_cons, driverTrace]
    rw [pollOnce_eq step b prev.length o hnlb hlen]
    refine List.chain'_cons'.mpr ⟨?_, driverTrace_mono step rest b L _ h2 hnl⟩
    intro y hy
    rw [List.head?_map, driverTrace_head] at hy
    simp only [Option.map_some', Option.mem_def, Option.some.injEq] at hy
    subst hy
    exact hlen

theorem foldl_lineStep_log :
    ∀ (L : List (List Char)) (acc : List (List Char)),
      L.foldl (lineStep (fun a l => a ++ [l])) acc
        = acc ++ L.filter (fun l => decide (l.length ≠ 0))
  | [], acc => by simp
  | l :: ls, acc => by
    by_cases h : l.length = 0
    · have hl : l = [] := List.length_eq_zero.mp h
      subst hl
      simp [lineStep, foldl_lineStep_log ls acc, List.filter_cons]
    · have hl : ¬ l = [] := by
        intro he
        subst he
        exact h rfl
      simp [lineStep, h, hl, foldl_lineStep_log ls (acc ++ [l]), List.filter_cons,
        List.append_assoc]

theorem sentry_foldl_expected
    (parse : List Char → Option SentryMsgType × List Char × Option (List Char))
    (F : SentryMsgType → List Char → Option (List Char))
    (hempty : (parse []).1 = none) :
    ∀ (L : List (List Char)) (files : SentryFiles) (t : SentryMsgType),
      (L.foldl (lineStep (sentry_process_line parse F)) files) t
        = files t ++ sentryExpected parse F t L
  | [], files, t => by simp [sentryExpected]
  | l :: ls, files, t => by
    by_cases hl : l.length = 0
    · have hl' : l = [] := List.length_eq_zero.mp hl
      subst hl'
      have hstep : lineStep (sentry_process_line parse F) files [] = files := by
        simp [lineStep]
      rw [List.foldl_cons, hstep, sentry_foldl_expected parse F hempty ls files t]
      have hexp : sentryExpected parse F t ([] :: ls) = sentryExpected parse F t ls := by
        unfold sentryExpected
        rw [List.filterMap_cons]
        rcases hp : parse [] with ⟨ty, pl, ts⟩
        have hty : ty = none := by
          rw [hp] at hempty
          exact hempty
        subst hty
        rfl
      rw [hexp]
    · have hstep : lineStep (sentry_process_line parse F) files l
          = sentry_process_line parse F files l := by
        simp [lineStep, hl]
      rw [List.foldl_cons, hstep, sentry_foldl_expected parse F hempty ls _ t]
      unfold sentryExpected
      rw [List.filterMap_cons]
      rcases hp : parse l with ⟨ty, pl, ts⟩
      cases ty with
      | none => simp [sentry_process_line, hp]
      | some t' =>
        cases hF : F t' pl with
        | none => simp [sentry_process_line, hp, hF]
        | some data =>
          by_cases ht : t' = t
          · subst ht
            simp [sentry_process_line, hp, hF, List.append_assoc]
          · have ht2 : ¬ t = t' := fun h => ht h.symm
            simp [sentry_process_line, hp, hF, ht, ht2]

theorem processLinesE_out_const {σ : Type} (step : σ → List Char → Except PyErr σ)
    (hstep : ∀ s l, step s l = Except.error PyErr.typeError) :
    ∀ (ls : List (List Char)) (s : σ), (processLinesE step s ls).1 = s
  | [], _ => rfl
  | l :: ls, s => by
    unfold processLinesE
    split
    · exact processLinesE_out_const step hstep ls s
    · rw [hstep s l]

theorem pollOnceE_out_const {σ : Type} (step : σ → List Char → Except PyErr σ)
    (hstep : ∀ s l, step s l = Except.error PyErr.typeError)
    (c : List Char) (s : DriverState σ) :
    ((pollOnceE step c s).1).out = s.out := by
  simp only [pollOnceE]
  split
  · rfl
  · exact processLinesE_out_const step hstep _ _

theorem driverRunE_out_const {σ : Type} (step : σ → List Char → Except PyErr σ)
    (hstep : ∀ s l, step s l = Except.error PyErr.typeError) :
    ∀ (contents : List (List Char)) (s : DriverState σ),
      ((driverRunE step s contents).1).out = s.out
  | [], _ => rfl
  | c :: cs, s => by
    have hout : (pollOnceE step c s).1.out = s.out := pollOnceE_out_const step hstep c s
    unfold driverRunE
    rcases hp : pollOnceE step c s with ⟨s2, err⟩
    rw [hp] at hout
    cases err with
    | none =>
      rw [driverRunE_out_const step hstep cs s2]
      exact hout
    | some e => exact hout

/-! ### Claim theorems -/

/-- C9: for every raw line that does not contain the queue-tag marker `SDQ`,
`parse_sentry_payload` returns `queue_id = none`, the payload equal to the
input line unchanged, and `timestamp = none` (filter_utils.py:66-67).  The
embedding is a total function, so no exception propagates for any input. -/
theorem sentry_no_marker_fail_soft (m : List Char) (sq scq eq2 : Int)
    (h : subIdx sdqTag m = none) :
    parse_sentry_payload m sq scq eq2 = (none, m, none) := by
  simp only [parse_sentry_payload, h]

/-- Witness for C9 at the concrete markerless line `hello world`. -/
theorem sentry_no_marker_fail_soft_witness :
    subIdx sdqTag ((r"hello world").toList) = none
    ∧ parse_sentry_payload ((r"hello world").toList) 0 4 2
        = (none, (r"hello world").toList, none) :=
  ⟨by decide, sentry_no_marker_fail_soft ((r"hello world").toList) 0 4 2 (by decide)⟩

/-- C8 counterexample: the raw line `12:00|hello` contains the separator `|`
but not the marker `SDQ`, and the classifier returns `timestamp = none`
rather than extracting `12:00` — the early return at filter_utils.py:66-67
skips timestamp extraction whenever the marker is absent. -/
theorem sentry_separator_without_marker_cex :
    ('|' ∈ (r"12:00|hello").toList)
    ∧ subIdx sdqTag ((r"12:00|hello").toList) = none
    ∧ (parse_sentry_payload ((r"12:00|hello").toList) 0 4 2).2.2 = none := by
  decide

/-- C8 amended: whenever the queue-tag marker `SDQ` is present, the
classifier extracts and returns the timestamp (the portion of the line
preceding the first `|`, the whole line if none), regardless of whether the
queue number parses; a line lacking the marker returns no timestamp. -/
theorem sentry_timestamp_marker_amended (m : List Char) (sq scq eq2 : Int)
    (i : Nat) (hi : subIdx sdqTag m = some i) :
    (parse_sentry_payload m sq scq eq2).2.2 = some ((splitChar '|' m).headD []) := by
  simp only [parse_sentry_payload, hi]
  split
  · rfl
  · split
    · rfl
    · split_ifs <;> rfl

/-- Witness for C8 (amended) at the round-trip example line. -/
theorem sentry_timestamp_marker_amended_witness :
    subIdx sdqTag sentry_example_line = some 9
    ∧ (parse_sentry_payload sentry_example_line 0 34 2).2.2
        = some ((r"SMS>blah").toList) :=
  ⟨by decide, sentry_timestamp_marker_amended sentry_example_line 0 34 2 9 (by decide)⟩

/-- C3 (code-bug evidence): the USBL line
`VFR 2019/09/24 13:27:58.033 2 0 SOLN_USBL` has six whitespace-separated
tokens, fewer than the nine the field layout requires, so
`parse_usbl_payload` raises `IndexError` (the unguarded `packets[6]` access
in the `info` f-string) for every target configuration and file state; the
per-line dispatch in usbl_filter.py:62-66 has no try/except, so the
exception aborts processing and the output written so far is all that
remains — contradicting the spec's fully-local failure policy. -/
theorem usbl_short_line_crash :
    (∀ (sid jid shid cid : List Char) (files : UsblFiles),
      parse_usbl_payload usbl_short_line sid jid shid cid files
        = Except.error PyErr.indexError)
    ∧ (∀ (sid jid shid cid : List Char) (files : UsblFiles) (rest : List (List Char)),
        processLinesE (fun fs l => parse_usbl_payload l sid jid shid cid fs) files
            (usbl_short_line :: rest)
          = (files, some PyErr.indexError)) := by
  constructor
  · intro sid jid shid cid files
    rfl
  · intro sid jid shid cid files rest
    rfl

/-- C10: `sentry_filter.py` as written produces no output record on any
input: the import at lines 17-18 requests `filter_supr_message`,
`filter_mets_message` and `filter_obs_message`, which `src/filter_utils.py`
does not define, so module load fails; and even past the import, the
per-line call passes six queue identifiers to the three-queue
`parse_sentry_payload`, which raises `TypeError` before any classification,
so the as-written loop never writes a record either. -/
theorem sentry_driver_no_output_as_written :
    sentryImportsOk = false
    ∧ (∀ (m : List Char) (q1 q2 q3 q4 q5 q6 : Int),
        callParseSentry m (sentryCallQueueArgs q1 q2 q3 q4 q5 q6)
          = Except.error PyErr.typeError)
    ∧ (∀ (F : SentryMsgType → List Char → Option (List Char)) (queueArgs : List Int)
        (contents : List (List Char)) (t : SentryMsgType),
        sentryMainOutputs F queueArgs contents t = [])
    ∧ (∀ (F : SentryMsgType → List Char → Option (List Char)) (q1 q2 q3 q4 q5 q6 : Int)
        (contents : List (List Char)) (t : SentryMsgType),
        ((driverRunE
            (sentry_line_step_as_written (sentryCallQueueArgs q1 q2 q3 q4 q5 q6) F)
            { last_line := 0, out := fun _ => [] } contents).1).out t = []) := by
  refine ⟨by decide, ?_, ?_, ?_⟩
  · intro m q1 q2 q3 q4 q5 q6
    rfl
  · intro F queueArgs contents t
    rfl
  · intro F q1 q2 q3 q4 q5 q6 contents t
    rw [driverRunE_out_const
      (sentry_line_step_as_written (sentryCallQueueArgs q1 q2 q3 q4 q5 q6) F)
      (fun _ _ => rfl) contents { last_line := 0, out := fun _ => [] }]

/-- C7: for every raw line containing the queue marker whose queue number
parses as an integer but equals none of the registry queues, the classifier
returns `(None, message, timestamp)` (filter_utils.py:82-83), the driver
skips the line writing nothing to any output file (sentry_filter.py:86-87),
and processing simply continues with the remaining lines; no exception
arises. -/
theorem sentry_unknown_queue_dropped
    (m : List Char) (sq scq eq2 q : Int) (i j : Nat)
    (hi : subIdx sdqTag m = some i)
    (hj : (m.drop i).findIdx? (fun c => c == ':') = some j)
    (hq : pyInt? (((m.drop i).drop 4).take (j - 4)) = some q)
    (h1 : q ≠ sq) (h2 : q ≠ scq) (h3 : q ≠ eq2)
    (F : SentryMsgType → List Char → Option (List Char))
    (files : SentryFiles) (rest : List (List Char)) :
    parse_sentry_payload m sq scq eq2 = (none, m, some ((splitChar '|' m).headD []))
    ∧ sentry_process_line (fun x => parse_sentry_payload x sq scq eq2) F files m = files
    ∧ (m :: rest).foldl
          (lineStep (sentry_process_line (fun x => parse_sentry_payload x sq scq eq2) F)) files
        = rest.foldl
            (lineStep (sentry_process_line (fun x => parse_sentry_payload x sq scq eq2) F))
            files := by
  have hp : parse_sentry_payload m sq scq eq2
      = (none, m, some ((splitChar '|' m).headD [])) := by
    simp only [parse_sentry_payload, hi, hj, hq, if_neg h1, if_neg h2, if_neg h3]
  have hstep : sentry_process_line (fun x => parse_sentry_payload x sq scq eq2) F files m
      = files := by
    simp only [sentry_process_line, hp]
  refine ⟨hp, hstep, ?_⟩
  rw [List.foldl_cons]
  congr 1
  unfold lineStep
  split
  · rfl
  · exact hstep

/-- Witness for C7 at the concrete line `SDQ 99:stuff` against the registry
queues 0, 4, 2. -/
theorem sentry_unknown_queue_dropped_witness :
    subIdx sdqTag unknownQueueLine = some 0
    ∧ parse_sentry_payload unknownQueueLine 0 4 2
        = (none, unknownQueueLine, some unknownQueueLine)
    ∧ sentry_process_line (fun x => parse_sentry_payload x 0 4 2) sentryFormatter3
        sentryFiles0 unknownQueueLine = sentryFiles0 :=
  ⟨by decide,
   (sentry_unknown_queue_dropped unknownQueueLine 0 4 2 99 0 6 (by decide) (by decide)
      (by decide) (by decide) (by decide) (by decide) sentryFormatter3 sentryFiles0 []).1,
   (sentry_unknown_queue_dropped unknownQueueLine 0 4 2 99 0 6 (by decide) (by decide)
      (by decide) (by decide) (by decide) (by decide) sentryFormatter3 sentryFiles0 []).2.1⟩

/-- C4 counterexample: the queue-tagged line `SDQ 34:1 2 3 4 5 6` lacks the
separator `|`, yet the timestamp the pipeline writes is the entire raw line
(`message.split("|")[0]` is the whole string when no `|` occurs), not the
empty string: the record appended to the science file is the whole raw line
followed by `,1,2,3,4,5,6`. -/
theorem sentry_timestamp_not_empty_cex :
    (subIdx sdqTag sentry_nobar_line).isSome = true
    ∧ '|' ∉ sentry_nobar_line
    ∧ (parse_sentry_payload sentry_nobar_line 0 34 2).2.2 = some sentry_nobar_line
    ∧ sentry_nobar_line ≠ []
    ∧ sentry_process_line (fun m => parse_sentry_payload m 0 34 2) sentryFormatter3
        sentryFiles0 sentry_nobar_line SentryMsgType.science
      = [sentry_nobar_line ++ ',' :: (r"1,2,3,4,5,6").toList] := by decide

/-- C4 amended: processing the raw line
`SMS>blah|SDQ 34:120.5 80.2 30.1 15.6 33.2 1500.0` with a registry mapping
science to queue 34 appends exactly the record
`SMS>blah,120.5,80.2,30.1,15.6,33.2,1500.0` to the science output file and
nothing to the other files, the timestamp being the portion preceding `|`;
and for every queue-tagged line lacking the separator the timestamp
returned (and hence written) is the entire raw line. -/
theorem sentry_science_roundtrip_amended :
    (sentry_process_line (fun m => parse_sentry_payload m 0 34 2) sentryFormatter3
        sentryFiles0 sentry_example_line SentryMsgType.science = [sentry_example_record]
      ∧ sentry_process_line (fun m => parse_sentry_payload m 0 34 2) sentryFormatter3
          sentryFiles0 sentry_example_line SentryMsgType.status = []
      ∧ sentry_process_line (fun m => parse_sentry_payload m 0 34 2) sentryFormatter3
          sentryFiles0 sentry_example_line SentryMsgType.experimental = [])
    ∧ (∀ (m : List Char) (sq scq eq2 : Int) (i : Nat),
        subIdx sdqTag m = some i → '|' ∉ m →
        (parse_sentry_payload m sq scq eq2).2.2 = some m) := by
  refine ⟨⟨by decide, by decide, by decide⟩, ?_⟩
  intro m sq scq eq2 i hi hbar
  simp only [parse_sentry_payload, hi, splitChar_eq_self '|' m hbar, List.headD_cons]
  split
  · rfl
  · split
    · rfl
    · split_ifs <;> rfl

/-- Witness for C4 (amended) at the separator-less line `SDQ 34:1 2 3 4 5 6`. -/
theorem sentry_science_roundtrip_amended_witness :
    subIdx sdqTag sentry_nobar_line = some 0
    ∧ '|' ∉ sentry_nobar_line
    ∧ (parse_sentry_payload sentry_nobar_line 0 34 2).2.2 = some sentry_nobar_line :=
  ⟨by decide, by decide,
    sentry_science_roundtrip_amended.2 sentry_nobar_line 0 34 2 0 (by decide) (by decide)⟩

/-- C5 counterexample: the science formatter performs no numeric validation.
On the payload `a b c d e f` — non-numeric tokens in all six float fields —
it returns the comma-joined tokens rather than `none`. -/
theorem science_nonnumeric_passthrough_cex :
    filter_sentry_science_message ((r"a b c d e f").toList)
        = some ((r"a,b,c,d,e,f").toList)
    ∧ filter_sentry_science_message ((r"a b c d e f").toList) ≠ none := by decide

/-- C5 amended: formatters fail soft on a field count lower than the
expected layout — the science formatter returns `none` (rather than
raising) whenever the payload splits into fewer than six fields — and when
a formatter returns `none` the driver writes nothing for that line and the
remaining lines are processed exactly as if the line were absent.  The
status and experimental formatters are total identities.  Non-numeric
tokens in numeric fields are not detected (see the counterexample). -/
theorem formatter_fieldcount_fail_soft :
    (∀ p : List Char, (splitChar ' ' p).length < 6 → filter_sentry_science_message p = none)
    ∧ (∀ p : List Char, filter_sentry_status_message p = some p)
    ∧ (∀ p : List Char, filter_experimental_message p = p)
    ∧ (∀ (parse : List Char → Option SentryMsgType × List Char × Option (List Char))
        (F : SentryMsgType → List Char → Option (List Char))
        (files : SentryFiles) (m pl : List Char) (t : SentryMsgType)
        (ts : Option (List Char)) (rest : List (List Char)),
        parse m = (some t, pl, ts) → F t pl = none →
        sentry_process_line parse F files m = files
        ∧ (m :: rest).foldl (lineStep (sentry_process_line parse F)) files
            = rest.foldl (lineStep (sentry_process_line parse F)) files) := by
  refine ⟨?_, fun p => rfl, fun p => rfl, ?_⟩
  · intro p hp
    rcases hsp : splitChar ' ' p with _ | ⟨a0, _ | ⟨a1, _ | ⟨a2, _ | ⟨a3, _ | ⟨a4, rest5⟩⟩⟩⟩⟩
    · simp [filter_sentry_science_message, hsp]
    · simp [filter_sentry_science_message, hsp]
    · simp [filter_sentry_science_message, hsp]
    · simp [filter_sentry_science_message, hsp]
    · simp [filter_sentry_science_message, hsp]
    · have h5 : rest5 = [] := by
        rw [hsp] at hp
        simp only [List.length_cons] at hp
        exact List.length_eq_zero.mp (by omega)
      subst h5
      simp [filter_sentry_science_message, hsp]
  · intro parse F files m pl t ts rest hparse hF
    have hstep : sentry_process_line parse F files m = files := by
      simp only [sentry_process_line, hparse, hF]
    refine ⟨hstep, ?_⟩
    rw [List.foldl_cons]
    congr 1
    unfold lineStep
    split
    · rfl
    · exact hstep

/-- Witness for C5 (amended): the three-field payload `1 2 3` is rejected by
the science formatter, and the line `SDQ 4:1 2` (science queue 4, two-field
payload) leaves the output files untouched. -/
theorem formatter_fieldcount_fail_soft_witness :
    ((splitChar ' ' ((r"1 2 3").toList)).length < 6
      ∧ filter_sentry_science_message ((r"1 2 3").toList) = none)
    ∧ (parse_sentry_payload ((r"SDQ 4:1 2").toList) 0 4 2
        = (some SentryMsgType.science, (r"1 2").toList, some ((r"SDQ 4:1 2").toList))
      ∧ sentry_process_line (fun m => parse_sentry_payload m 0 4 2) sentryFormatter3
          sentryFiles0 ((r"SDQ 4:1 2").toList) = sentryFiles0) :=
  ⟨⟨by decide, formatter_fieldcount_fail_soft.1 ((r"1 2 3").toList) (by decide)⟩,
   ⟨by decide,
    (formatter_fieldcount_fail_soft.2.2.2 (fun m => parse_sentry_payload m 0 4 2)
        sentryFormatter3 sentryFiles0 ((r"SDQ 4:1 2").toList) ((r"1 2").toList)
        SentryMsgType.science (some ((r"SDQ 4:1 2").toList)) [] (by decide) (by decide)).1⟩⟩

/-- C1: over one run of the sentry driver loop — any append-only sequence of
poll snapshots growing from the empty file to the batch `L` of raw lines —
the content of the output file for each message type equals, in order, the
records `timestamp,data` produced from exactly the subsequence of raw lines
that classify to that type and whose formatter returns a non-none result
(strict FIFO per type, no reordering, no duplication).  The classifier is
the six-queue revision modelled from the spec (`parse_sentry_payload_v2`)
and the three formatters absent from `src/filter_utils.py` are universally
quantified. -/
theorem sentry_driver_fifo_per_type
    (fsupr fmets fobs : List Char → Option (List Char))
    (q1 q2 q3 q4 q5 q6 : Int)
    (snaps : List (List (List Char))) (L : List (List Char))
    (hchain : chainFromB [] L snaps = true)
    (hnl : ∀ l ∈ L, '\n' ∉ l) (t : SentryMsgType) :
    (driverRun
        (sentry_process_line (fun m => parse_sentry_payload_v2 m q1 q2 q3 q4 q5 q6)
          (sentryFormatter fsupr fmets fobs))
        { last_line := 0, out := sentryFiles0 } (snaps.map joinNl)).out t
      = sentryExpected (fun m => parse_sentry_payload_v2 m q1 q2 q3 q4 q5 q6)
          (sentryFormatter fsupr fmets fobs) t L := by
  have hrun := driverRun_chain
    (sentry_process_line (fun m => parse_sentry_payload_v2 m q1 q2 q3 q4 q5 q6)
      (sentryFormatter fsupr fmets fobs)) sentryFiles0 snaps [] L hchain hnl
  simp only [List.length_nil, List.foldl_nil] at hrun
  rw [hrun]
  have hexp := sentry_foldl_expected
    (fun m => parse_sentry_payload_v2 m q1 q2 q3 q4 q5 q6)
    (sentryFormatter fsupr fmets fobs) rfl L sentryFiles0 t
  simpa [sentryFiles0] using hexp

/-- Witness for C1: a two-cycle run (one line, then both lines) against the
registry (0, 4, 2, 7, 8, 9). -/
theorem sentry_driver_fifo_per_type_witness :
    chainFromB [] fifoLW fifoSnapsW = true
    ∧ (driverRun
        (sentry_process_line (fun m => parse_sentry_payload_v2 m 0 4 2 7 8 9)
          (sentryFormatter (fun _ => none) (fun _ => none) (fun _ => none)))
        { last_line := 0, out := sentryFiles0 } (fifoSnapsW.map joinNl)).out
          SentryMsgType.science
      = sentryExpected (fun m => parse_sentry_payload_v2 m 0 4 2 7 8 9)
          (sentryFormatter (fun _ => none) (fun _ => none) (fun _ => none))
          SentryMsgType.science fifoLW :=
  ⟨by decide,
   sentry_driver_fifo_per_type (fun _ => none) (fun _ => none) (fun _ => none)
     0 4 2 7 8 9 fifoSnapsW fifoLW (by decide) (by decide) SentryMsgType.science⟩

/-- C2: under an append-only producer of whole newline-terminated lines
(poll snapshots `snaps` growing from empty to the batch `L`), the driver's
`last_line` cursor is monotonically non-decreasing across polling
iterations; the final state processes every line of `L` exactly once, in
order (the run equals the single fold over `L`, and with a logging step the
output is exactly the nonempty lines of `L`, each once); and any two
arrangements of polling cycles over the same batch yield identical final
output. -/
theorem driver_cursor_monotone_exactly_once {σ : Type}
    (step : σ → List Char → σ) (o0 : σ)
    (snaps : List (List (List Char))) (L : List (List Char))
    (hchain : chainFromB [] L snaps = true)
    (hnl : ∀ l ∈ L, '\n' ∉ l) :
    driverRun step { last_line := 0, out := o0 } (snaps.map joinNl)
        = { last_line := L.length, out := L.foldl (lineStep step) o0 }
    ∧ List.Chain' (fun a b => a ≤ b)
        ((driverTrace step { last_line := 0, out := o0 } (snaps.map joinNl)).map
          DriverState.last_line)
    ∧ (∀ snaps2 : List (List (List Char)), chainFromB [] L snaps2 = true →
        driverRun step { last_line := 0, out := o0 } (snaps2.map joinNl)
          = driverRun step { last_line := 0, out := o0 } (snaps.map joinNl))
    ∧ (driverRun (fun acc l => acc ++ [l])
          { last_line := 0, out := ([] : List (List Char)) } (snaps.map joinNl)).out
        = L.filter (fun l => decide (l.length ≠ 0)) := by
  have hmain : ∀ (τ : Type) (st : τ → List Char → τ) (oo : τ),
      driverRun st { last_line := 0, out := oo } (snaps.map joinNl)
        = { last_line := L.length, out := L.foldl (lineStep st) oo } := by
    intro τ st oo
    have h := driverRun_chain st oo snaps [] L hchain hnl
    simpa using h
  refine ⟨hmain σ step o0, ?_, ?_, ?_⟩
  · have h := driverTrace_mono step snaps [] L o0 hchain hnl
    simpa using h
  · intro snaps2 hchain2
    have h2 := driverRun_chain step o0 snaps2 [] L hchain2 hnl
    simp only [List.length_nil, List.foldl_nil] at h2
    rw [h2, hmain σ step o0]
  · rw [hmain (List (List Char)) (fun acc l => acc ++ [l]) []]
    simp [foldl_lineStep_log]

/-- Witness for C2: a two-cycle run over the batch `ab`, `cd` with a
character-counting step. -/
theorem driver_cursor_monotone_exactly_once_witness :
    chainFromB [] logLW logSnapsW = true
    ∧ driverRun (fun (n : Nat) l => n + l.length) { last_line := 0, out := 0 }
        (logSnapsW.map joinNl)
      = { last_line := logLW.length
          out := logLW.foldl (lineStep (fun (n : Nat) l => n + l.length)) 0 } :=
  ⟨by decide,
   (driver_cursor_monotone_exactly_once (fun (n : Nat) l => n + l.length) 0 logSnapsW logLW
      (by decide) (by decide)).1⟩

/-- C6: for every raw USBL line that classifies without error, at most one
target's output file receives a record (the updated state is the input state
or the input state with exactly one record appended to exactly one target),
and a line accepted by no branch of the if/elif chain — no matching target,
or a solution-type token the matched target does not accept — is a silent
no-op. -/
theorem usbl_route_at_most_one
    (m sid jid shid cid : List Char) (files f2 : UsblFiles)
    (h : parse_usbl_payload m sid jid shid cid files = Except.ok f2) :
    (usblMatches m sid jid shid cid = false → f2 = files)
    ∧ (f2 = files
       ∨ f2 = { files with sentry := files.sentry ++ [usblInfo m] }
       ∨ f2 = { files with jason := files.jason ++ [usblInfo m] }
       ∨ f2 = { files with ship := files.ship ++ [usblInfo m] }
       ∨ f2 = { files with ctd := files.ctd ++ [usblInfo m] }) := by
  unfold parse_usbl_payload at h
  split at h
  case h_2 => exact absurd h (by simp)
  case h_1 p0 p1 p2 p3 p4 p5 p6 p7 p8 rest9 heq =>
    have hinfo : usblInfo m = usblInfoOf p1 p2 p6 p7 p8 := by
      simp [usblInfo, heq, List.getD_cons_zero, List.getD_cons_succ]
    have hmatch : usblMatches m sid jid shid cid
        = ((subIdx vfrTag p0).isSome &&
            (decide (p4 = sid) && (subIdx usblTag p5).isSome ||
             decide (p4 = jid) && (subIdx usblTag p5).isSome ||
             decide (p4 = shid) && (subIdx gps0Tag p5).isSome ||
             decide (p4 = cid) && (subIdx usblTag p5).isSome)) := by
      simp [usblMatches, heq, List.getD_cons_zero, List.getD_cons_succ]
    rw [hinfo]
    split_ifs at h with hvfr hc1 hc2 hc3 hc4
    · injection h with h2
      refine ⟨?_, Or.inr (Or.inl h2.symm)⟩
      intro hfalse
      rw [hmatch] at hfalse
      simp [hvfr, hc1.1, hc1.2] at hfalse
    · injection h with h2
      refine ⟨?_, Or.inr (Or.inr (Or.inl h2.symm))⟩
      intro hfalse
      rw [hmatch] at hfalse
      simp [hvfr, hc2.1, hc2.2] at hfalse
    · injection h with h2
      refine ⟨?_, Or.inr (Or.inr (Or.inr (Or.inl h2.symm)))⟩
      intro hfalse
      rw [hmatch] at hfalse
      simp [hvfr, hc3.1, hc3.2] at hfalse
    · injection h with h2
      refine ⟨?_, Or.inr (Or.inr (Or.inr (Or.inr h2.symm)))⟩
      intro hfalse
      rw [hmatch] at hfalse
      simp [hvfr, hc4.1, hc4.2] at hfalse
    · injection h with h2
      exact ⟨fun _ => h2.symm, Or.inl h2.symm⟩
    · injection h with h2
      exact ⟨fun _ => h2.symm, Or.inl h2.symm⟩

/-- Witness for C6: the example fix line routed with sentry id `0`, jason id
`1`, ship id `2`, ctd id `5`: exactly one record — the standardized
timestamp and the three numeric fields — is appended to the sentry file, and
the ship target (which requires `SOLN_GPS0`) receives nothing. -/
theorem usbl_route_at_most_one_witness :
    (parse_usbl_payload usbl_example_line ((r"0").toList) ((r"1").toList) ((r"2").toList)
        ((r"5").toList) usblFiles0 = Except.ok usblFilesEx)
    ∧ (usblFilesEx = usblFiles0
       ∨ usblFilesEx
          = { usblFiles0 with sentry := usblFiles0.sentry ++ [usblInfo usbl_example_line] }
       ∨ usblFilesEx
          = { usblFiles0 with jason := usblFiles0.jason ++ [usblInfo usbl_example_line] }
       ∨ usblFilesEx
          = { usblFiles0 with ship := usblFiles0.ship ++ [usblInfo usbl_example_line] }
       ∨ usblFilesEx
          = { usblFiles0 with ctd := usblFiles0.ctd ++ [usblInfo usbl_example_line] }) :=
  ⟨rfl,
   (usbl_route_at_most_one usbl_example_line ((r"0").toList) ((r"1").toList)
      ((r"2").toList) ((r"5").toList) usblFiles0 usblFilesEx rfl).2⟩
